import Mathlib

/-!
Verification of the rate-composition and risk engine of the variable-rate
lending pool (`backend/app/services/interest_rate_service.py`), against its
natural-language specification.

The Python code works on `float` and on dictionaries with optional keys.
The shallow embedding uses `ℚ` for the numeric fields (the constants of the
formulas are exact decimal fractions, so every worked example of the spec is
exact rational arithmetic), `Option` for a dictionary key that may be absent
(`d.get(key, default)` becomes `field.getD default`), `Except String _` for
an upstream oracle call that may raise, and plain `String` for the free-form
string fields (`trend`, `volatility_regime`, `risk_level`, `status`), since
the source compares them as strings with defaulted lookups.

Python's `datetime`-valued `next_update` field is outside the embedding (no
claim touches it); every other key of the returned dictionaries is a field
of the corresponding structure.
-/

/-! ## Configuration (`app/config.py`) -/

namespace Settings

def BASE_INTEREST_RATE : ℚ := 2/100

def MAX_INTEREST_RATE : ℚ := 30/100

def MIN_INTEREST_RATE : ℚ := 1/100

end Settings

/-! ## Oracle payloads (the dictionaries the service reads)

`Prediction` is the dictionary returned by
`PredictionService.get_prediction`, `Volatility` the one returned by
`MarketDataService.calculate_volatility`, `MlVolatility` the one returned by
`PredictionService.get_volatility_prediction`, and `MarketData` the one
returned by `MarketDataService.get_market_data`. Each field the service
reads through `.get(key, default)` is an `Option`; `current_price` is read
with `[...]`, so it is a required field. -/

structure Prediction where
  trend : Option String
  predicted_change_percent : Option ℚ
  confidence_score : Option ℚ
  model_version : Option String
  data_source : Option String
deriving DecidableEq

structure Volatility where
  annualized_volatility : Option ℚ
  volatility_regime : Option String
  max_drawdown : Option ℚ
deriving DecidableEq

structure MlVolatility where
  predicted_volatility : Option ℚ
  risk_level : Option String
  trend_strength : Option ℚ
deriving DecidableEq

structure MarketData where
  current_price : ℚ
deriving DecidableEq

/-- A lending pool's record in `self.pool_data`; every key is read through
`.get(key, default)`, so each is an `Option`. -/
structure Pool where
  total_supplied : Option ℚ
  total_borrowed : Option ℚ
  reserve_factor : Option ℚ
deriving DecidableEq

/-- The `rate_components` sub-dictionary of a successful rate calculation. -/
structure RateComponents where
  market_volatility : ℚ
  predicted_volatility : ℚ
  predicted_trend : String
  predicted_change : ℚ
  confidence_score : ℚ
  volatility_regime : String
  risk_level : String
  model_version : String
  data_source : String
deriving DecidableEq

/-- The dictionary `calculate_interest_rate` returns. The fallback dictionary
built by `_get_fallback_rate` has no `rate_components` key, hence that field
is an `Option`, `none` on the fallback path. -/
structure RateBreakdown where
  cryptocurrency : String
  current_rate : ℚ
  base_rate : ℚ
  volatility_premium : ℚ
  utilization_factor : ℚ
  risk_adjustment : ℚ
  effective_rate : ℚ
  apy : ℚ
  rate_components : Option RateComponents
deriving DecidableEq

/-- The dictionary `calculate_borrow_rate` returns. -/
structure BorrowQuote where
  base_rate : ℚ
  rate_adjustment : ℚ
  final_rate : ℚ
  apy : ℚ
  collateral_ratio : ℚ
  health_factor : ℚ
  liquidation_threshold : ℚ
deriving DecidableEq

/-- The positions record `get_user_positions` returns (the two asset lists
are not read by `calculate_health_factor`, which uses only the totals). -/
structure UserPositions where
  wallet_address : String
  total_supplied_usd : ℚ
  total_borrowed_usd : ℚ
deriving DecidableEq

/-- The internal value of the local variable `health_factor` in
`calculate_health_factor`: Python's `float('inf')` or a finite quotient. -/
inductive HealthValue where
  | infinite : HealthValue
  | finite : ℚ → HealthValue
deriving DecidableEq

/-- The dictionary `calculate_health_factor` returns. -/
structure HealthReport where
  wallet_address : String
  health_factor : ℚ
  status : String
  total_collateral_usd : ℚ
  total_debt_usd : ℚ
  liquidation_threshold : ℚ
deriving DecidableEq

namespace InterestRateService

/-! ## Instance constants (`__init__`) -/

def base_rate : ℚ := Settings.BASE_INTEREST_RATE

def max_rate : ℚ := Settings.MAX_INTEREST_RATE

def min_rate : ℚ := Settings.MIN_INTEREST_RATE

/-- The seed `self.pool_data` of `__init__`. -/
def init_pool_data : String → Option Pool := fun crypto_id =>
  if crypto_id = "ethereum" then
    some { total_supplied := some 10000, total_borrowed := some 6500,
           reserve_factor := some (1/10) }
  else none

/-! ## `_calculate_volatility_premium` -/

/-- The `regime_multipliers` dictionary lookup with default `1.0`. -/
def regime_multiplier (regime : String) : ℚ :=
  if regime = "low" then 6/10
  else if regime = "medium" then 1
  else if regime = "high" then 14/10
  else if regime = "extreme" then 2
  else 1

/-- The `risk_multipliers` dictionary lookup with default `1.0`. -/
def risk_multiplier (risk_level : String) : ℚ :=
  if risk_level = "low" then 8/10
  else if risk_level = "medium" then 1
  else if risk_level = "high" then 13/10
  else if risk_level = "very_high" then 16/10
  else 1

def calculate_volatility_premium (volatility : Volatility)
    (prediction : Prediction) (ml_volatility : Option MlVolatility) : ℚ :=
  let annualized_vol := volatility.annualized_volatility.getD (1/2)
  let effective_vol :=
    match ml_volatility with
    | some ml =>
        let predicted_vol := ml.predicted_volatility.getD (3/100)
        let confidence := prediction.confidence_score.getD (1/2)
        annualized_vol * (1 - confidence * (1/2)) +
          predicted_vol * (confidence * (1/2))
    | none => annualized_vol
  let vol_premium := effective_vol * (12/100)
  let confidence := prediction.confidence_score.getD (1/2)
  let uncertainty_factor := (1 - confidence) * (25/1000)
  let regime := volatility.volatility_regime.getD "medium"
  let risk_mult :=
    match ml_volatility with
    | some ml => risk_multiplier (ml.risk_level.getD "medium")
    | none => 1
  let vol_premium := vol_premium * (regime_multiplier regime * risk_mult)
  vol_premium + uncertainty_factor

/-! ## `_calculate_utilization_factor` -/

/-- The kinked curve applied to the utilization ratio (the body of
`_calculate_utilization_factor` after `utilization` is computed). -/
def utilization_curve (utilization : ℚ) : ℚ :=
  let optimal_utilization : ℚ := 8/10
  if utilization ≤ optimal_utilization then
    utilization * (5/100)
  else
    let base_factor := optimal_utilization * (5/100)
    let excess := utilization - optimal_utilization
    let jump_factor := excess * (1/2)
    base_factor + jump_factor

def calculate_utilization_factor (pool_data : String → Option Pool)
    (crypto_id : String) : ℚ :=
  let pool := (pool_data crypto_id).getD
    { total_supplied := some 10000, total_borrowed := some 5000,
      reserve_factor := none }
  let total_supplied := pool.total_supplied.getD 10000
  let total_borrowed := pool.total_borrowed.getD 5000
  if total_supplied = 0 then 0
  else utilization_curve (total_borrowed / total_supplied)

/-! ## `_calculate_risk_adjustment` -/

def calculate_risk_adjustment (prediction : Prediction)
    (volatility : Volatility) (ml_volatility : Option MlVolatility) : ℚ :=
  let trend := prediction.trend.getD "neutral"
  let predicted_change := prediction.predicted_change_percent.getD 0
  let max_drawdown := volatility.max_drawdown.getD (1/10)
  let confidence := prediction.confidence_score.getD (1/2)
  let risk_adj : ℚ := 0
  let risk_adj :=
    if trend = "bearish" ∧ confidence > 6/10 then
      let decline_severity := |predicted_change| / 100
      let confidence_weight := min confidence (95/100)
      let bearish_premium :=
        min (decline_severity * confidence_weight * (4/10)) (8/100)
      risk_adj + bearish_premium
    else if trend = "bullish" ∧ confidence > 7/10 ∧ predicted_change > 5 then
      let bullish_discount :=
        min (predicted_change / 100 * confidence * (1/10)) (2/100)
      risk_adj - bullish_discount
    else risk_adj
  let risk_adj :=
    if max_drawdown > 25/100 then risk_adj + 3/100
    else if max_drawdown > 15/100 then risk_adj + 2/100
    else if max_drawdown > 10/100 then risk_adj + 1/100
    else risk_adj
  let risk_adj :=
    match ml_volatility with
    | some ml =>
        if ml.trend_strength.getD 0 > 15 then risk_adj + 15/1000 else risk_adj
    | none => risk_adj
  risk_adj

/-! ## `_calculate_apy` -/

def calculate_apy (rate : ℚ) : ℚ :=
  let compounds_per_year : ℚ := 365
  (1 + rate / compounds_per_year) ^ (365 : ℕ) - 1

/-! ## `_get_fallback_rate` -/

def get_fallback_rate (crypto_id : String) : RateBreakdown :=
  { cryptocurrency := crypto_id
    current_rate := base_rate + 3/100
    base_rate := base_rate
    volatility_premium := 2/100
    utilization_factor := 1/100
    risk_adjustment := 0
    effective_rate := base_rate + 3/100
    apy := calculate_apy (base_rate + 3/100)
    rate_components := none }

/-! ## `calculate_interest_rate`

The three `await`ed oracle calls are the operations that may raise inside
the `try` block; each is passed in as an `Except String _` result. The pure
arithmetic below them is total, so the `except` branch of the source is
taken exactly when one of the oracle results is an `error`. `self.pool_data`
(mutable instance state read by `_calculate_utilization_factor`) is passed
as the `pool_data` argument. -/

def calculate_interest_rate (crypto_id : String)
    (prediction_result : Except String Prediction)
    (volatility_result : Except String Volatility)
    (ml_volatility_result : Except String MlVolatility)
    (pool_data : String → Option Pool) : RateBreakdown :=
  match prediction_result, volatility_result, ml_volatility_result with
  | .ok prediction, .ok volatility, .ok ml_volatility =>
      let volatility_premium :=
        calculate_volatility_premium volatility prediction (some ml_volatility)
      let utilization_factor := calculate_utilization_factor pool_data crypto_id
      let risk_adjustment :=
        calculate_risk_adjustment prediction volatility (some ml_volatility)
      let effective_rate :=
        base_rate + volatility_premium + utilization_factor + risk_adjustment
      let effective_rate := max min_rate (min max_rate effective_rate)
      { cryptocurrency := crypto_id
        current_rate := effective_rate
        base_rate := base_rate
        volatility_premium := volatility_premium
        utilization_factor := utilization_factor
        risk_adjustment := risk_adjustment
        effective_rate := effective_rate
        apy := calculate_apy effective_rate
        rate_components := some
          { market_volatility := volatility.annualized_volatility.getD 0
            predicted_volatility := ml_volatility.predicted_volatility.getD 0
            predicted_trend := prediction.trend.getD "neutral"
            predicted_change := prediction.predicted_change_percent.getD 0
            confidence_score := prediction.confidence_score.getD 0
            volatility_regime := volatility.volatility_regime.getD "medium"
            risk_level := ml_volatility.risk_level.getD "medium"
            model_version := prediction.model_version.getD "unknown"
            data_source := prediction.data_source.getD "unknown" } }
  | _, _, _ => get_fallback_rate crypto_id

/-! ## `calculate_borrow_rate` and `_calculate_loan_health_factor` -/

def calculate_loan_health_factor (collateral_ratio : ℚ) : ℚ :=
  let liquidation_threshold : ℚ := 115/100
  collateral_ratio / liquidation_threshold

/-- The tiered risk adjustment by collateral ratio (lines 302–313 of the
source, factored out of `calculate_borrow_rate`'s body). -/
def borrow_rate_adjustment (collateral_ratio : ℚ) : ℚ :=
  if collateral_ratio ≥ 2 then -(5/1000)
  else if collateral_ratio ≥ 3/2 then 0
  else if collateral_ratio ≥ 5/4 then 2/100
  else 5/100

def calculate_borrow_rate (crypto_id : String) (amount : ℚ)
    (collateral_amount : ℚ)
    (prediction_result : Except String Prediction)
    (volatility_result : Except String Volatility)
    (ml_volatility_result : Except String MlVolatility)
    (pool_data : String → Option Pool)
    (collateral_price_data : MarketData)
    (borrow_price_data : MarketData) : BorrowQuote :=
  let base_rate_info := calculate_interest_rate crypto_id prediction_result
    volatility_result ml_volatility_result pool_data
  let loan_base_rate := base_rate_info.effective_rate
  let collateral_value := collateral_amount * collateral_price_data.current_price
  let borrow_value := amount * borrow_price_data.current_price
  let collateral_ratio :=
    if borrow_value > 0 then collateral_value / borrow_value else 0
  let rate_adjustment := borrow_rate_adjustment collateral_ratio
  let final_rate := max min_rate (min max_rate (loan_base_rate + rate_adjustment))
  { base_rate := loan_base_rate
    rate_adjustment := rate_adjustment
    final_rate := final_rate
    apy := calculate_apy final_rate
    collateral_ratio := collateral_ratio
    health_factor := calculate_loan_health_factor collateral_ratio
    liquidation_threshold := 115/100 }

/-! ## `calculate_health_factor`

The source first fetches the wallet's positions (`get_user_positions`, a
static read model); the evaluator below takes that record as its argument.
Python's `float('inf')` assigned when there is no debt is `HealthValue.infinite`;
the returned dictionary replaces it by `999`
(`health_factor if health_factor != float('inf') else 999`). -/

def calculate_health_factor (positions : UserPositions) : HealthReport :=
  let total_collateral := positions.total_supplied_usd
  let total_debt := positions.total_borrowed_usd
  let result : HealthValue × String :=
    if total_debt = 0 then
      (HealthValue.infinite, "no_debt")
    else
      let health_factor := (total_collateral * (85/100)) / total_debt
      let status :=
        if health_factor > 2 then "healthy"
        else if health_factor > 3/2 then "moderate"
        else if health_factor > 11/10 then "at_risk"
        else "danger"
      (HealthValue.finite health_factor, status)
  { wallet_address := positions.wallet_address
    health_factor :=
      match result.1 with
      | HealthValue.infinite => 999
      | HealthValue.finite q => q
    status := result.2
    total_collateral_usd := total_collateral
    total_debt_usd := total_debt
    liquidation_threshold := 85/100 }

end InterestRateService

/-! ## Concrete inputs used by the worked examples -/

open InterestRateService

/-- The prediction of the spec's end-to-end example: neutral trend,
confidence `0.5`, no predicted change. -/
def neutral_prediction : Prediction :=
  { trend := some "neutral", predicted_change_percent := some 0,
    confidence_score := some (1/2), model_version := none, data_source := none }

/-- The market volatility of the end-to-end example: historical volatility
`0.5`, medium regime, drawdown `0.1` (below every add-on threshold). -/
def medium_volatility : Volatility :=
  { annualized_volatility := some (1/2), volatility_regime := some "medium",
    max_drawdown := some (1/10) }

/-- The ML volatility of the end-to-end example: predicted volatility
`0.03`, medium risk level, no trend strength. -/
def medium_ml_volatility : MlVolatility :=
  { predicted_volatility := some (3/100), risk_level := some "medium",
    trend_strength := some 0 }

/-- A fully healthy signal chosen so that the normal calculation reproduces
every scalar field of the fallback breakdown: confidence `1` (so the
uncertainty term is `0`), historical volatility `1/3` and predicted
volatility `0` (so the volatility premium is exactly `0.02`), drawdown
`0.05` and neutral trend (so the risk adjustment is `0`). -/
def masking_prediction : Prediction :=
  { trend := some "neutral", predicted_change_percent := some 0,
    confidence_score := some 1, model_version := none, data_source := none }

def masking_volatility : Volatility :=
  { annualized_volatility := some (1/3), volatility_regime := some "medium",
    max_drawdown := some (1/20) }

def masking_ml_volatility : MlVolatility :=
  { predicted_volatility := some 0, risk_level := some "medium",
    trend_strength := some 0 }

/-- A pool at utilization `0.2`, so the utilization factor is exactly the
fallback's `0.01`. -/
def masking_pool_data : String → Option Pool := fun crypto_id =>
  if crypto_id = "ethereum" then
    some { total_supplied := some 10000, total_borrowed := some 2000,
           reserve_factor := some (1/10) }
  else none

/-! ## Theorems -/

/-- C3: the utilization factor equals `u × 0.05` for `u ≤ 0.80` and
`0.80 × 0.05 + (u − 0.80) × 0.5` for `u > 0.80`; it is non-decreasing in
`u`; both branch formulas evaluate to exactly `0.04` at `u = 0.80`
(continuity at the kink); and on each side of the kink the curve is linear,
with the slope above the optimal point exactly `10 ×` the slope `0.05`
below it. -/
theorem utilization_curve_kinked_model :
    (∀ u : ℚ, u ≤ 8/10 → utilization_curve u = u * (5/100)) ∧
    (∀ u : ℚ, 8/10 < u →
      utilization_curve u = (8/10) * (5/100) + (u - 8/10) * (1/2)) ∧
    (∀ u v : ℚ, u ≤ v → utilization_curve u ≤ utilization_curve v) ∧
    ((8/10 : ℚ) * (5/100) = 4/100 ∧
      (8/10 : ℚ) * (5/100) + ((8/10 : ℚ) - 8/10) * (1/2) = 4/100 ∧
      utilization_curve (8/10) = 4/100) ∧
    (∀ u v : ℚ, u ≤ 8/10 → v ≤ 8/10 →
      utilization_curve v - utilization_curve u = (5/100) * (v - u)) ∧
    (∀ u v : ℚ, 8/10 ≤ u → 8/10 ≤ v →
      utilization_curve v - utilization_curve u = 10 * (5/100) * (v - u)) := by
  have hdef : ∀ u : ℚ, utilization_curve u =
      if u ≤ 8/10 then u * (5/100)
      else (8/10) * (5/100) + (u - 8/10) * (1/2) := fun u => rfl
  have hbelow : ∀ u : ℚ, u ≤ 8/10 → utilization_curve u = u * (5/100) := by
    intro u h; rw [hdef u, if_pos h]
  have habove : ∀ u : ℚ, 8/10 < u →
      utilization_curve u = (8/10) * (5/100) + (u - 8/10) * (1/2) := by
    intro u h; rw [hdef u, if_neg (not_le.mpr h)]
  refine ⟨hbelow, habove, ?_, ⟨by norm_num, by norm_num, ?_⟩, ?_, ?_⟩
  · intro u v huv
    rcases le_or_lt u (8/10) with hu | hu <;> rcases le_or_lt v (8/10) with hv | hv
    · rw [hbelow u hu, hbelow v hv]; linarith
    · rw [hbelow u hu, habove v hv]; nlinarith
    · linarith
    · rw [habove u hu, habove v hv]; linarith
  · rw [hbelow (8/10) le_rfl]; norm_num
  · intro u v hu hv
    rw [hbelow u hu, hbelow v hv]; ring
  · intro u v hu hv
    rcases eq_or_lt_of_le hu with hu' | hu' <;>
      rcases eq_or_lt_of_le hv with hv' | hv'
    · rw [← hu', ← hv']; ring
    · rw [← hu', hbelow (8/10) le_rfl, habove v hv']; ring
    · rw [← hv', hbelow (8/10) le_rfl, habove u hu']; ring
    · rw [habove u hu', habove v hv']; ring

/-- C4: the spec's end-to-end worked example. With base_rate `0.02`,
bounds `[0.01, 0.30]`, the seed ethereum pool (utilization
`6500/10000 = 0.65`), historical volatility `0.5`, predicted volatility
`0.03`, confidence `0.5`, medium regime and risk level, neutral trend and no
add-ons: `utilization_factor = 0.0325`, `effective_vol = 0.3825`,
`vol_premium = 0.0459`, `uncertainty = 0.0125`,
`volatility_premium = 0.0584`, `risk_adjustment = 0`, and
`effective_rate = 0.1109`. The first four equations restate the intermediate
arithmetic of the blend; the rest evaluate the service itself. -/
theorem end_to_end_worked_example :
    ((1/2 : ℚ) * (1 - (1/2) * (1/2)) + (3/100) * ((1/2) * (1/2)) = 3825/10000) ∧
    ((3825/10000 : ℚ) * (12/100) = 459/10000) ∧
    ((1 - (1/2) : ℚ) * (25/1000) = 125/10000) ∧
    ((459/10000 : ℚ) + 125/10000 = 584/10000) ∧
    calculate_volatility_premium medium_volatility neutral_prediction
      (some medium_ml_volatility) = 584/10000 ∧
    calculate_utilization_factor init_pool_data "ethereum" = 325/10000 ∧
    calculate_risk_adjustment neutral_prediction medium_volatility
      (some medium_ml_volatility) = 0 ∧
    (calculate_interest_rate "ethereum" (.ok neutral_prediction)
      (.ok medium_volatility) (.ok medium_ml_volatility)
      init_pool_data).volatility_premium = 584/10000 ∧
    (calculate_interest_rate "ethereum" (.ok neutral_prediction)
      (.ok medium_volatility) (.ok medium_ml_volatility)
      init_pool_data).utilization_factor = 325/10000 ∧
    (calculate_interest_rate "ethereum" (.ok neutral_prediction)
      (.ok medium_volatility) (.ok medium_ml_volatility)
      init_pool_data).risk_adjustment = 0 ∧
    (calculate_interest_rate "ethereum" (.ok neutral_prediction)
      (.ok medium_volatility) (.ok medium_ml_volatility)
      init_pool_data).effective_rate = 1109/10000 := by
  refine ⟨by norm_num, by norm_num, by norm_num, by norm_num, ?_, ?_, ?_, ?_, ?_, ?_, ?_⟩ <;>
    norm_num [calculate_interest_rate, calculate_volatility_premium,
      calculate_utilization_factor, calculate_risk_adjustment,
      utilization_curve, regime_multiplier, risk_multiplier,
      neutral_prediction, medium_volatility, medium_ml_volatility,
      init_pool_data, base_rate, min_rate, max_rate,
      Settings.BASE_INTEREST_RATE, Settings.MIN_INTEREST_RATE,
      Settings.MAX_INTEREST_RATE, min_def, max_def,
      show (("medium" : String) = "low") = False from by decide]

/-- C5 counterexample: at total collateral `8500` USD and total debt `5000`
USD the health factor is `1.445 = 289/200`, but the returned status is not
`moderate`: `1.445` fails the `> 1.5` test of the moderate band, so the
classifier lands in the `at_risk` band. -/
theorem health_example_status_not_moderate :
    ¬ ((calculate_health_factor
        { wallet_address := "wallet", total_supplied_usd := 8500,
          total_borrowed_usd := 5000 }).health_factor = 289/200 ∧
      (calculate_health_factor
        { wallet_address := "wallet", total_supplied_usd := 8500,
          total_borrowed_usd := 5000 }).status = "moderate") := by
  norm_num [calculate_health_factor]
  decide

/-- C5 (amended): at total collateral `8500` USD and total debt `5000` USD
the evaluator returns `health_factor = (8500 × 0.85) / 5000 = 1.445 =
289/200` and classifies the position `at_risk` (since `1.445 ≤ 1.5`, the
band `> 1.1` applies, not `moderate`). -/
theorem health_example_moderate_amended :
    (calculate_health_factor
      { wallet_address := "wallet", total_supplied_usd := 8500,
        total_borrowed_usd := 5000 }).health_factor = 289/200 ∧
    (8500 * (85/100) : ℚ) / 5000 = 289/200 ∧
    (289/200 : ℚ) = 1445/1000 ∧
    (calculate_health_factor
      { wallet_address := "wallet", total_supplied_usd := 8500,
        total_borrowed_usd := 5000 }).status = "at_risk" := by
  refine ⟨?_, by norm_num, by norm_num, ?_⟩ <;> norm_num [calculate_health_factor]

/-- C6: with zero total debt the evaluator reports `status = no_debt` and
the `health_factor` field of the returned report is the finite sentinel
`999`, not the internal `float('inf')` (`HealthValue.infinite`), which the
return statement replaces. -/
theorem no_debt_sentinel (wallet : String) (collateral : ℚ) :
    (calculate_health_factor
      { wallet_address := wallet, total_supplied_usd := collateral,
        total_borrowed_usd := 0 }).status = "no_debt" ∧
    (calculate_health_factor
      { wallet_address := wallet, total_supplied_usd := collateral,
        total_borrowed_usd := 0 }).health_factor = 999 := by
  constructor <;> simp [calculate_health_factor]

/-- C7: in `calculate_borrow_rate` the collateral ratio is
`collateral_value / borrow_value`, is `0` (without raising — the guard is an
inline conditional, and the embedding is a total function) when
`borrow_value = 0`, and the rate adjustment is tiered by the ratio:
`≥ 2.0 → −0.005`, `≥ 1.5 → 0`, `≥ 1.25 → +0.02`, anything smaller
(for example `1.2` or `0`) `→ +0.05`. -/
theorem borrow_rate_collateral_tiers :
    (∀ r : ℚ, 2 ≤ r → borrow_rate_adjustment r = -(5/1000)) ∧
    (∀ r : ℚ, 3/2 ≤ r → r < 2 → borrow_rate_adjustment r = 0) ∧
    (∀ r : ℚ, 5/4 ≤ r → r < 3/2 → borrow_rate_adjustment r = 2/100) ∧
    (∀ r : ℚ, r < 5/4 → borrow_rate_adjustment r = 5/100) ∧
    borrow_rate_adjustment 2 = -(5/1000) ∧
    borrow_rate_adjustment (12/10) = 5/100 ∧
    borrow_rate_adjustment 0 = 5/100 ∧
    (∀ (c : String) (amount collateral_amount : ℚ)
      (pr : Except String Prediction) (vr : Except String Volatility)
      (mr : Except String MlVolatility) (pd : String → Option Pool)
      (cp bp : MarketData),
      (0 < amount * bp.current_price →
        (calculate_borrow_rate c amount collateral_amount pr vr mr pd
          cp bp).collateral_ratio =
          (collateral_amount * cp.current_price) / (amount * bp.current_price)) ∧
      (¬ 0 < amount * bp.current_price →
        (calculate_borrow_rate c amount collateral_amount pr vr mr pd
          cp bp).collateral_ratio = 0) ∧
      (calculate_borrow_rate c amount collateral_amount pr vr mr pd
        cp bp).rate_adjustment =
        borrow_rate_adjustment
          (calculate_borrow_rate c amount collateral_amount pr vr mr pd
            cp bp).collateral_ratio) := by
  have hadj : ∀ r : ℚ, borrow_rate_adjustment r =
      if r ≥ 2 then -(5/1000)
      else if r ≥ 3/2 then 0
      else if r ≥ 5/4 then 2/100
      else 5/100 := fun r => rfl
  have hratio : ∀ (c : String) (amount collateral_amount : ℚ)
      (pr : Except String Prediction) (vr : Except String Volatility)
      (mr : Except String MlVolatility) (pd : String → Option Pool)
      (cp bp : MarketData),
      (calculate_borrow_rate c amount collateral_amount pr vr mr pd
        cp bp).collateral_ratio =
        if amount * bp.current_price > 0 then
          (collateral_amount * cp.current_price) / (amount * bp.current_price)
        else 0 := fun _ _ _ _ _ _ _ _ _ => rfl
  refine ⟨?_, ?_, ?_, ?_, by norm_num [borrow_rate_adjustment],
    by norm_num [borrow_rate_adjustment], by norm_num [borrow_rate_adjustment], ?_⟩
  · intro r h; rw [hadj r, if_pos h]
  · intro r h h2; rw [hadj r, if_neg (by simpa using not_le.mpr h2), if_pos h]
  · intro r h h2
    rw [hadj r, if_neg (by simpa using not_le.mpr (lt_of_lt_of_le h2 (by norm_num))),
      if_neg (by simpa using not_le.mpr h2), if_pos h]
  · intro r h
    rw [hadj r, if_neg (by simpa using not_le.mpr (lt_of_lt_of_le h (by norm_num))),
      if_neg (by simpa using not_le.mpr (lt_of_lt_of_le h (by norm_num))),
      if_neg (by simpa using not_le.mpr h)]
  · intro c amount collateral_amount pr vr mr pd cp bp
    refine ⟨?_, ?_, rfl⟩
    · intro h; rw [hratio, if_pos h]
    · intro h; rw [hratio, if_neg h]

/-- Strict Bernoulli inequality specialized to exponent 365: for positive
`x`, `(1 + x)^365` exceeds `1 + 365·x` (the quadratic term of the expansion
is positive). Shared helper for the APY property. -/
theorem one_add_mul_lt_pow_365 (x : ℚ) (hx : 0 < x) :
    1 + 365 * x < (1 + x) ^ (365 : ℕ) := by
  have hquad : (1 : ℚ) + 365 * x < (1 + 364 * x) * (1 + x) := by
    nlinarith only [hx]
  have h364 : (1 : ℚ) + 364 * x ≤ (1 + x) ^ (364 : ℕ) := by
    have h := one_add_mul_le_pow (a := x) (by linarith) 364
    push_cast at h
    exact h
  have key : ((1 : ℚ) + 364 * x) * (1 + x) ≤ (1 + x) ^ (364 : ℕ) * (1 + x) :=
    mul_le_mul_of_nonneg_right h364 (add_nonneg (by norm_num) hx.le)
  rw [show (365 : ℕ) = 364 + 1 from rfl, pow_succ]
  exact lt_of_lt_of_le hquad key

/-- C8: the APY conversion is `(1 + r/365)^365 − 1` (daily compounding),
`apy(0) = 0`, and `apy(r) > r` for every `r > 0`. -/
theorem apy_compounding_properties :
    (∀ r : ℚ, calculate_apy r = (1 + r / 365) ^ (365 : ℕ) - 1) ∧
    calculate_apy 0 = 0 ∧
    (∀ r : ℚ, 0 < r → r < calculate_apy r) := by
  have hdef : ∀ r : ℚ, calculate_apy r = (1 + r / 365) ^ (365 : ℕ) - 1 :=
    fun r => rfl
  refine ⟨hdef, by rw [hdef]; norm_num, ?_⟩
  intro r hr
  rw [hdef]
  have hx : 0 < r / 365 := by positivity
  have h := one_add_mul_lt_pow_365 (r / 365) hx
  have hr365 : (365 : ℚ) * (r / 365) = r := by ring
  rw [hr365] at h
  have h2 : r + 1 < (1 + r / 365) ^ (365 : ℕ) := by
    calc r + 1 = 1 + r := by ring
    _ < (1 + r / 365) ^ (365 : ℕ) := h
  exact lt_sub_iff_add_lt.mpr h2

/-- C1: on the rate-composition (non-fallback) path, for every signal input
and every pool state, the returned `effective_rate` is the sum
`base_rate + volatility_premium + utilization_factor + risk_adjustment`
clamped into `[min_rate, max_rate]`, and therefore lies in that interval. -/
theorem effective_rate_within_bounds (crypto_id : String)
    (prediction : Prediction) (volatility : Volatility)
    (ml_volatility : MlVolatility) (pool_data : String → Option Pool) :
    (calculate_interest_rate crypto_id (.ok prediction) (.ok volatility)
        (.ok ml_volatility) pool_data).effective_rate =
      max min_rate (min max_rate
        (base_rate +
          calculate_volatility_premium volatility prediction (some ml_volatility) +
          calculate_utilization_factor pool_data crypto_id +
          calculate_risk_adjustment prediction volatility (some ml_volatility))) ∧
    min_rate ≤ (calculate_interest_rate crypto_id (.ok prediction)
        (.ok volatility) (.ok ml_volatility) pool_data).effective_rate ∧
    (calculate_interest_rate crypto_id (.ok prediction) (.ok volatility)
        (.ok ml_volatility) pool_data).effective_rate ≤ max_rate := by
  refine ⟨rfl, le_max_left _ _, ?_⟩
  have h : (calculate_interest_rate crypto_id (.ok prediction) (.ok volatility)
      (.ok ml_volatility) pool_data).effective_rate =
      max min_rate (min max_rate
        (base_rate +
          calculate_volatility_premium volatility prediction (some ml_volatility) +
          calculate_utilization_factor pool_data crypto_id +
          calculate_risk_adjustment prediction volatility (some ml_volatility))) := rfl
  rw [h]
  exact max_le (by norm_num [min_rate, max_rate, Settings.MIN_INTEREST_RATE,
    Settings.MAX_INTEREST_RATE]) (min_le_left _ _)

/-- C2: if any of the three oracle calls inside the `try` block fails, the
operation returns the fixed degraded-mode breakdown of
`_get_fallback_rate`, whose `effective_rate` is `base_rate + 0.03`; the
embedding is a total function, so a value is returned for every input and
no exception passes the boundary. -/
theorem fallback_on_oracle_failure (crypto_id : String)
    (prediction_result : Except String Prediction)
    (volatility_result : Except String Volatility)
    (ml_volatility_result : Except String MlVolatility)
    (pool_data : String → Option Pool)
    (h : prediction_result.toOption = none ∨ volatility_result.toOption = none ∨
      ml_volatility_result.toOption = none) :
    calculate_interest_rate crypto_id prediction_result volatility_result
      ml_volatility_result pool_data = get_fallback_rate crypto_id ∧
    (calculate_interest_rate crypto_id prediction_result volatility_result
      ml_volatility_result pool_data).effective_rate = base_rate + 3/100 := by
  have heq : calculate_interest_rate crypto_id prediction_result volatility_result
      ml_volatility_result pool_data = get_fallback_rate crypto_id := by
    rcases prediction_result with e | p
    · rfl
    · rcases volatility_result with e | v
      · rfl
      · rcases ml_volatility_result with e | m
        · rfl
        · simp [Except.toOption] at h
  exact ⟨heq, by rw [heq]; rfl⟩

/-- C2 witness: a concrete failed prediction oracle forces the fallback,
whose `effective_rate` is `base_rate + 0.03`. -/
theorem fallback_on_oracle_failure_witness :
    calculate_interest_rate "ethereum" (.error "oracle timeout")
      (.ok medium_volatility) (.ok medium_ml_volatility) init_pool_data =
      get_fallback_rate "ethereum" ∧
    (calculate_interest_rate "ethereum" (.error "oracle timeout")
      (.ok medium_volatility) (.ok medium_ml_volatility)
      init_pool_data).effective_rate = base_rate + 3/100 :=
  fallback_on_oracle_failure "ethereum" (.error "oracle timeout")
    (.ok medium_volatility) (.ok medium_ml_volatility) init_pool_data
    (Or.inl rfl)

/-- C9 counterexample: no field present in the degraded breakdown marks it
as degraded. At the concrete healthy signal `masking_*` (confidence 1,
historical volatility 1/3, predicted volatility 0, neutral trend, drawdown
0.05, pool utilization 0.2) the normal path returns a breakdown agreeing
with `_get_fallback_rate` on every field the fallback dictionary carries
(`cryptocurrency`, `current_rate`, `base_rate`, `volatility_premium`,
`utilization_factor`, `risk_adjustment`, `effective_rate`, `apy`); the only
difference is the `rate_components` key, present on the normal path and
absent (`none`) on the fallback path — an omission, not an explicit
flag/marker field. -/
theorem degraded_result_has_no_flag_field :
    (calculate_interest_rate "ethereum" (.ok masking_prediction)
      (.ok masking_volatility) (.ok masking_ml_volatility)
      masking_pool_data).cryptocurrency =
        (get_fallback_rate "ethereum").cryptocurrency ∧
    (calculate_interest_rate "ethereum" (.ok masking_prediction)
      (.ok masking_volatility) (.ok masking_ml_volatility)
      masking_pool_data).current_rate =
        (get_fallback_rate "ethereum").current_rate ∧
    (calculate_interest_rate "ethereum" (.ok masking_prediction)
      (.ok masking_volatility) (.ok masking_ml_volatility)
      masking_pool_data).base_rate =
        (get_fallback_rate "ethereum").base_rate ∧
    (calculate_interest_rate "ethereum" (.ok masking_prediction)
      (.ok masking_volatility) (.ok masking_ml_volatility)
      masking_pool_data).volatility_premium =
        (get_fallback_rate "ethereum").volatility_premium ∧
    (calculate_interest_rate "ethereum" (.ok masking_prediction)
      (.ok masking_volatility) (.ok masking_ml_volatility)
      masking_pool_data).utilization_factor =
        (get_fallback_rate "ethereum").utilization_factor ∧
    (calculate_interest_rate "ethereum" (.ok masking_prediction)
      (.ok masking_volatility) (.ok masking_ml_volatility)
      masking_pool_data).risk_adjustment =
        (get_fallback_rate "ethereum").risk_adjustment ∧
    (calculate_interest_rate "ethereum" (.ok masking_prediction)
      (.ok masking_volatility) (.ok masking_ml_volatility)
      masking_pool_data).effective_rate =
        (get_fallback_rate "ethereum").effective_rate ∧
    (calculate_interest_rate "ethereum" (.ok masking_prediction)
      (.ok masking_volatility) (.ok masking_ml_volatility)
      masking_pool_data).apy = (get_fallback_rate "ethereum").apy ∧
    (get_fallback_rate "ethereum").rate_components = none ∧
    (calculate_interest_rate "ethereum" (.ok masking_prediction)
      (.ok masking_volatility) (.ok masking_ml_volatility)
      masking_pool_data).rate_components ≠ none := by
  have hrate : (calculate_interest_rate "ethereum" (.ok masking_prediction)
      (.ok masking_volatility) (.ok masking_ml_volatility)
      masking_pool_data).effective_rate =
      (get_fallback_rate "ethereum").effective_rate := by
    norm_num [calculate_interest_rate, calculate_volatility_premium,
      calculate_utilization_factor, calculate_risk_adjustment,
      utilization_curve, regime_multiplier, risk_multiplier,
      masking_prediction, masking_volatility, masking_ml_volatility,
      masking_pool_data, get_fallback_rate, base_rate, min_rate, max_rate,
      Settings.BASE_INTEREST_RATE, Settings.MIN_INTEREST_RATE,
      Settings.MAX_INTEREST_RATE, min_def, max_def,
      show (("medium" : String) = "low") = False from by decide]
  refine ⟨rfl, hrate, rfl, ?_, ?_, ?_, hrate, ?_, rfl, ?_⟩
  · norm_num [calculate_interest_rate, calculate_volatility_premium,
      regime_multiplier, risk_multiplier, masking_prediction,
      masking_volatility, masking_ml_volatility, get_fallback_rate,
      show (("medium" : String) = "low") = False from by decide]
  · norm_num [calculate_interest_rate, calculate_utilization_factor,
      utilization_curve, masking_pool_data, get_fallback_rate]
  · norm_num [calculate_interest_rate, calculate_risk_adjustment,
      masking_prediction, masking_volatility, masking_ml_volatility,
      get_fallback_rate]
  · exact congrArg calculate_apy hrate
  · exact Option.some_ne_none _

/-- C9 (amended): a degraded result is not signalled by a raised error nor
by any flag field present in the breakdown (the counterexample shows every
fallback field value can coincide with a normal result's); the marker is
structural — the `rate_components` key is absent exactly when an oracle
call failed and the fallback was substituted, and present on every normal
result. -/
theorem degraded_marked_by_absent_components (crypto_id : String)
    (prediction_result : Except String Prediction)
    (volatility_result : Except String Volatility)
    (ml_volatility_result : Except String MlVolatility)
    (pool_data : String → Option Pool) :
    (calculate_interest_rate crypto_id prediction_result volatility_result
        ml_volatility_result pool_data).rate_components = none ↔
      (prediction_result.toOption = none ∨ volatility_result.toOption = none ∨
        ml_volatility_result.toOption = none) := by
  rcases prediction_result with e | p
  · simp [calculate_interest_rate, get_fallback_rate, Except.toOption]
  · rcases volatility_result with e | v
    · simp [calculate_interest_rate, get_fallback_rate, Except.toOption]
    · rcases ml_volatility_result with e | m
      · simp [calculate_interest_rate, get_fallback_rate, Except.toOption]
      · simp [calculate_interest_rate, Except.toOption]

/-- Bounds for the trend branch of `_calculate_risk_adjustment`: the
bearish premium is `min`-capped at `0.08` and non-negative, the bullish
discount is `min`-capped at `0.02` and non-negative, and the branches are
mutually exclusive (an `if/elif`), so the branch value lies in
`[−0.02, 0.08]`. -/
theorem risk_core_branch_bounds (t : String) (c k : ℚ) :
    -(2/100) ≤ (if t = "bearish" ∧ k > 6/10
        then 0 + min (|c| / 100 * min k (95/100) * (4/10)) (8/100)
        else if t = "bullish" ∧ k > 7/10 ∧ c > 5
        then 0 - min (c / 100 * k * (1/10)) (2/100)
        else (0:ℚ)) ∧
    (if t = "bearish" ∧ k > 6/10
        then 0 + min (|c| / 100 * min k (95/100) * (4/10)) (8/100)
        else if t = "bullish" ∧ k > 7/10 ∧ c > 5
        then 0 - min (c / 100 * k * (1/10)) (2/100)
        else (0:ℚ)) ≤ 8/100 := by
  constructor <;> split_ifs with h1 h2
  · have hk : (0:ℚ) ≤ min k (95/100) := le_min (by linarith [h1.2]) (by norm_num)
    have hA : (0:ℚ) ≤ |c| / 100 * min k (95/100) * (4/10) :=
      mul_nonneg (mul_nonneg (by positivity) hk) (by norm_num)
    have h0 : (0:ℚ) ≤ min (|c| / 100 * min k (95/100) * (4/10)) (8/100) :=
      le_min hA (by norm_num)
    linarith
  · have := min_le_right (c / 100 * k * (1/10)) ((2:ℚ)/100)
    linarith
  · norm_num
  · have := min_le_right (|c| / 100 * min k (95/100) * (4/10)) ((8:ℚ)/100)
    linarith
  · have hB : (0:ℚ) ≤ c / 100 * k * (1/10) :=
      mul_nonneg (mul_nonneg (by linarith [h2.2.2]) (by linarith [h2.2.1]))
        (by norm_num)
    have h0 : (0:ℚ) ≤ min (c / 100 * k * (1/10)) (2/100) := le_min hB (by norm_num)
    linarith
  · norm_num

/-- Adding the drawdown tier (at most `+0.03`) to a branch value in
`[−0.02, 0.08]` keeps the total in `[−0.02, 0.125]`. -/
theorem drawdown_final_bounds {x : ℚ} (d : ℚ)
    (hlo : -(2/100) ≤ x) (hhi : x ≤ 8/100) :
    -(2/100) ≤ (if d > 25/100 then x + 3/100 else if d > 15/100 then x + 2/100
      else if d > 10/100 then x + 1/100 else x) ∧
    (if d > 25/100 then x + 3/100 else if d > 15/100 then x + 2/100
      else if d > 10/100 then x + 1/100 else x) ≤ 125/1000 := by
  constructor <;> split_ifs <;> linarith

/-- Adding the drawdown tier (at most `+0.03`) and the trend-strength
add-on (at most `+0.015`) to a branch value in `[−0.02, 0.08]` keeps the
total in `[−0.02, 0.125]`. -/
theorem strength_final_bounds {x : ℚ} (s d : ℚ)
    (hlo : -(2/100) ≤ x) (hhi : x ≤ 8/100) :
    -(2/100) ≤ (if s > 15 then
        (if d > 25/100 then x + 3/100 else if d > 15/100 then x + 2/100
          else if d > 10/100 then x + 1/100 else x) + 15/1000
      else (if d > 25/100 then x + 3/100 else if d > 15/100 then x + 2/100
          else if d > 10/100 then x + 1/100 else x)) ∧
    (if s > 15 then
        (if d > 25/100 then x + 3/100 else if d > 15/100 then x + 2/100
          else if d > 10/100 then x + 1/100 else x) + 15/1000
      else (if d > 25/100 then x + 3/100 else if d > 15/100 then x + 2/100
          else if d > 10/100 then x + 1/100 else x)) ≤ 125/1000 := by
  constructor <;> split_ifs <;> linarith

/-- C10: for every prediction, volatility and ML-volatility input, the risk
adjustment lies in `[−0.02, 0.125]`: the bullish discount is capped at
`0.02`, the bearish premium at `0.08` (mutually exclusive branches, see
`risk_core_branch_bounds`), the drawdown add-on at `0.03` and the
trend-strength add-on at `0.015`. -/
theorem risk_adjustment_bounded (prediction : Prediction)
    (volatility : Volatility) (ml_volatility : Option MlVolatility) :
    -(2/100) ≤ calculate_risk_adjustment prediction volatility ml_volatility ∧
    calculate_risk_adjustment prediction volatility ml_volatility ≤ 125/1000 := by
  obtain ⟨hcl, hch⟩ := risk_core_branch_bounds (prediction.trend.getD "neutral")
    (prediction.predicted_change_percent.getD 0)
    (prediction.confidence_score.getD (1/2))
  rcases ml_volatility with _ | ml
  · simp only [calculate_risk_adjustment]
    exact drawdown_final_bounds (volatility.max_drawdown.getD (1/10)) hcl hch
  · simp only [calculate_risk_adjustment]
    exact strength_final_bounds (ml.trend_strength.getD 0)
      (volatility.max_drawdown.getD (1/10)) hcl hch
